import Mathlib

/-!
Verification of the laravel-dusk-mcp server (src/index.ts) against its
natural-language specification.  The TypeScript source is shallowly embedded:
pure text processing (parseTestResults, command building, path handling) is
translated to executable Lean functions on `String` / `List Char`; the
filesystem, process spawning and JSON parsing are modelled as oracles in an
`Env` record, and the one piece of mutable state (the module-level `config`)
is threaded explicitly through the tool dispatcher.
-/

namespace LaravelDusk

/-! ### Character classes of the JavaScript regexes

`\d` in a JS regex is exactly the ASCII digits.  `\s` is the JS WhiteSpace and
LineTerminator sets; `.` (without the `s` flag) excludes the four
LineTerminator code points. -/

/-- ASCII digit, the JS regex class backslash-d. -/
def isDigitChar (c : Char) : Bool :=
  decide (48 ≤ c.toNat ∧ c.toNat ≤ 57)

/-- JS regex whitespace class backslash-s (WhiteSpace plus LineTerminator);
also the character set removed by `String.prototype.trim`. -/
def jsWs (c : Char) : Bool :=
  decide (c.toNat = 9 ∨ c.toNat = 10 ∨ c.toNat = 11 ∨ c.toNat = 12 ∨
    c.toNat = 13 ∨ c.toNat = 32 ∨ c.toNat = 160 ∨ c.toNat = 5760 ∨
    (8192 ≤ c.toNat ∧ c.toNat ≤ 8202) ∨ c.toNat = 8232 ∨ c.toNat = 8233 ∨
    c.toNat = 8239 ∨ c.toNat = 8287 ∨ c.toNat = 12288 ∨ c.toNat = 65279)

/-- JS LineTerminator code points, the characters NOT matched by `.`. -/
def isLineTerm (c : Char) : Bool :=
  decide (c.toNat = 10 ∨ c.toNat = 13 ∨ c.toNat = 8232 ∨ c.toNat = 8233)

/-! ### Deterministic matchers for the three regexes of `parseTestResults`

The summary regex `Tests:\s+(\d+),\s+Assertions:\s+(\d+)(?:,\s+Failures:\s+(\d+))?`
only ever places `\s+` and `\d+` before characters disjoint from their own
class, so greedy matching without backtracking is exact; the search is
leftmost, realised by scanning every start position in order. -/

/-- Match a literal character sequence, returning the rest of the input. -/
def matchLit : List Char → List Char → Option (List Char)
  | [], cs => some cs
  | _ :: _, [] => none
  | l :: ls, c :: cs => if c = l then matchLit ls cs else none

/-- Greedy `\s+`: at least one JS whitespace character, then the maximal run. -/
def takeWs1 : List Char → Option (List Char)
  | [] => none
  | c :: cs => if jsWs c then some (cs.dropWhile jsWs) else none

/-- Greedy digit run, accumulating the decimal value (the effect of
`parseInt` on the captured group). -/
def digitsVal : Nat → List Char → Nat × List Char
  | acc, [] => (acc, [])
  | acc, c :: cs =>
    if isDigitChar c then digitsVal (acc * 10 + (c.toNat - 48)) cs
    else (acc, c :: cs)

/-- Greedy `(\d+)` with its `parseInt` value: at least one digit. -/
def takeDigits1 : List Char → Option (Nat × List Char)
  | [] => none
  | c :: cs => if isDigitChar c then some (digitsVal 0 (c :: cs)) else none

/-- The optional clause `(?:,\s+Failures:\s+(\d+))?` of the summary regex;
`some f` when the clause matches with capture value `f`. -/
def trySummaryTail (cs : List Char) : Option Nat :=
  (matchLit [','] cs).bind fun cs1 =>
  (takeWs1 cs1).bind fun cs2 =>
  (matchLit "Failures:".data cs2).bind fun cs3 =>
  (takeWs1 cs3).bind fun cs4 =>
  (takeDigits1 cs4).map fun p => p.1

/-- Attempt the summary regex at the head of the input, returning the
captured `(total, failed)`; `failed` falls back to `0` when the optional
clause is absent, mirroring `parseInt(summaryMatch[3] || '0')`. -/
def trySummaryAt (cs : List Char) : Option (Nat × Nat) :=
  (matchLit "Tests:".data cs).bind fun cs1 =>
  (takeWs1 cs1).bind fun cs2 =>
  (takeDigits1 cs2).bind fun p =>
  (matchLit [','] p.2).bind fun cs3 =>
  (takeWs1 cs3).bind fun cs4 =>
  (matchLit "Assertions:".data cs4).bind fun cs5 =>
  (takeWs1 cs5).bind fun cs6 =>
  (takeDigits1 cs6).map fun q => (p.1, (trySummaryTail q.2).getD 0)

/-- Leftmost match of the summary regex: `output.match(/Tests:\s+.../)`. -/
def findSummary : List Char → Option (Nat × Nat)
  | [] => none
  | c :: cs =>
    match trySummaryAt (c :: cs) with
    | some r => some r
    | none => findSummary cs

/-! ### The duration regex `Time:\s+(.+)`

Here `\s` and `.` overlap (a space matches both), so the greedy `\s+` must
backtrack when `(.+)` cannot start after the maximal whitespace run; the
recursion below tries the longer whitespace prefix first, exactly the regex
engine's order. -/

/-- Attempt `(.+)` (greedy, `.` excluding line terminators) at the head. -/
def tryDotCapture (cs : List Char) : Option (List Char) :=
  match cs with
  | [] => none
  | c :: _ => if isLineTerm c then none else some (cs.takeWhile (fun x => !isLineTerm x))

/-- Match `\s*(.+)` with the regex preference order (longer `\s*` first),
returning the capture of `(.+)`. -/
def wsStarDot : List Char → Option (List Char)
  | [] => none
  | c :: cs =>
    if jsWs c then
      match wsStarDot cs with
      | some cap => some cap
      | none => tryDotCapture (c :: cs)
    else tryDotCapture (c :: cs)

/-- Match `\s+(.+)`, returning the capture of `(.+)`. -/
def wsPlusDot : List Char → Option (List Char)
  | [] => none
  | c :: cs => if jsWs c then wsStarDot cs else none

/-- Attempt `Time:\s+(.+)` at the head of the input. -/
def tryTimeAt (cs : List Char) : Option (List Char) :=
  match matchLit "Time:".data cs with
  | none => none
  | some cs => wsPlusDot cs

/-- Leftmost match of the duration regex: `output.match(/Time:\s+(.+)/)`. -/
def findTime : List Char → Option (List Char)
  | [] => none
  | c :: cs =>
    match tryTimeAt (c :: cs) with
    | some cap => some cap
    | none => findTime cs

/-! ### The failure-block regex `FAILURES!\n(.+?)\n\n` (with the `s` flag)

With the `s` flag `.` matches every character, and the lazy `(.+?)` stops at
the first blank line after at least one captured character. -/

/-- Lazy `(.+?)\n\n`: the shortest nonempty capture followed by two
newlines. -/
def lazyDotNl : List Char → Option (List Char)
  | a :: b :: c :: rest =>
    if b = '\n' ∧ c = '\n' then some [a]
    else (lazyDotNl (b :: c :: rest)).map (a :: ·)
  | _ => none

/-- Attempt the failure-block regex at the head, returning the capture. -/
def tryFailuresAt (cs : List Char) : Option (List Char) :=
  match matchLit "FAILURES!\n".data cs with
  | none => none
  | some cs => lazyDotNl cs

/-- Leftmost match of the failure-block regex (`failureRegex.exec(output)`
is called once, so only the first match matters). -/
def findFailures : List Char → Option (List Char)
  | [] => none
  | c :: cs =>
    match tryFailuresAt (c :: cs) with
    | some cap => some cap
    | none => findFailures cs

/-! ### `split(/\d+\)/)`, `trim`, `split('\n')`, `join('\n')` -/

/-- One-pass worker for splitting on the ordinal pattern `\d+\)`: `cur` is
the current segment (reversed) and `digits` the pending digit run (reversed)
that may yet become a separator if a closing parenthesis follows. -/
def splitOrdGo : List Char → List Char → List Char → List (List Char)
  | cur, digits, [] => [(digits ++ cur).reverse]
  | cur, digits, c :: rest =>
    if isDigitChar c then splitOrdGo cur (c :: digits) rest
    else if c = ')' ∧ digits ≠ [] then cur.reverse :: splitOrdGo [] [] rest
    else splitOrdGo (c :: (digits ++ cur)) [] rest

/-- The split `failureSection.split(/\d+\)/)`: split on each leftmost maximal digit
run immediately followed by a closing parenthesis. -/
def splitOrd (cs : List Char) : List (List Char) :=
  splitOrdGo [] [] cs

/-- JS `String.prototype.trim` (strips WhiteSpace and LineTerminator from
both ends). -/
def jsTrim (cs : List Char) : List Char :=
  ((cs.dropWhile jsWs).reverse.dropWhile jsWs).reverse

/-- JS `split('\n')` on a character list. -/
def splitOnNl : List Char → List (List Char)
  | [] => [[]]
  | c :: cs =>
    if c = '\n' then [] :: splitOnNl cs
    else
      match splitOnNl cs with
      | s :: ss => (c :: s) :: ss
      | [] => [[c]]

/-- JS `join('\n')` on character lists. -/
def joinNl : List (List Char) → List Char
  | [] => []
  | [s] => s
  | s :: rest => s ++ '\n' :: joinNl rest

/-! ### `parseTestResults` -/

/-- One itemized failure: first line of the block and the remaining lines. -/
structure FailureRecord where
  test : String
  message : String
deriving DecidableEq, Repr

/-- The structured summary produced by `parseTestResults`.  All counters are
the values of `parseInt` on captured digit groups except `passed`, which is
a JS subtraction and can be negative, hence `Int`. -/
structure TestResultSummary where
  total : Nat
  passed : Int
  failed : Nat
  skipped : Nat
  duration : String
  failures : List FailureRecord
deriving DecidableEq, Repr

/-- The body of the per-failure `forEach`: segments empty after trimming are
dropped; otherwise the first line (trimmed) is the test name and the
remaining lines, rejoined and trimmed, the message.  (`lines.length > 0` is
the `match` on the split result, which always has at least one entry.) -/
def mkFailure (seg : List Char) : Option FailureRecord :=
  let t := jsTrim seg
  if t = [] then none
  else
    match splitOnNl t with
    | [] => none
    | l0 :: ls =>
      some { test := String.mk (jsTrim l0), message := String.mk (jsTrim (joinNl ls)) }

/-- Function `parseTestResults` from src/index.ts lines 115-163.  (The unused local
`const lines = output.split('\n')` at the top of the function has no
effect and is omitted.) -/
def parseTestResults (output : String) : TestResultSummary :=
  let base : TestResultSummary :=
    { total := 0, passed := 0, failed := 0, skipped := 0, duration := "", failures := [] }
  let s1 :=
    match findSummary output.data with
    | some (t, f) => { base with total := t, failed := f, passed := (t : Int) - (f : Int) }
    | none => base
  let s2 :=
    match findTime output.data with
    | some cap => { s1 with duration := String.mk cap }
    | none => s1
  match findFailures output.data with
  | some sec => { s2 with failures := (splitOrd sec).filterMap mkFailure }
  | none => s2

/-! ### POSIX path handling (Node `path.join` / normalization) -/

/-- Predicate `String.prototype.startsWith`, computed on the character lists. -/
def strStartsWith (s pre : String) : Bool :=
  pre.data.isPrefixOf s.data

/-- Predicate `String.prototype.endsWith`, computed on the character lists. -/
def strEndsWith (s suf : String) : Bool :=
  suf.data.isSuffixOf s.data

/-- JS `split(sep)` on a character list, for an arbitrary separator. -/
def splitOnChar (sep : Char) : List Char → List (List Char)
  | [] => [[]]
  | c :: cs =>
    if c = sep then [] :: splitOnChar sep cs
    else
      match splitOnChar sep cs with
      | s :: ss => (c :: s) :: ss
      | [] => [[c]]

/-- Normalization worker: process path segments against a reversed stack,
resolving `.` and `..` (`..` above the root of an absolute path is
dropped; above the start of a relative path it is kept). -/
def normSegs (absolute : Bool) : List String → List String → List String
  | stack, [] => stack.reverse
  | stack, seg :: rest =>
    if seg = "" ∨ seg = "." then normSegs absolute stack rest
    else if seg = ".." then
      match stack with
      | [] => if absolute then normSegs absolute [] rest else normSegs absolute [".."] rest
      | s :: stail =>
        if s = ".." then normSegs absolute (".." :: stack) rest
        else normSegs absolute stail rest
    else normSegs absolute (seg :: stack) rest

/-- Node `path.posix.normalize` (trailing-slash preservation omitted; no
caller passes a trailing slash). -/
def pathNormalize (s : String) : String :=
  let absolute := strStartsWith s "/"
  let segs := (splitOnChar '/' s.data).map String.mk
  let body := String.intercalate "/" (normSegs absolute [] segs)
  if absolute then (if body = "" then "/" else "/" ++ body)
  else (if body = "" then "." else body)

/-- Node `path.posix.join`: drop empty parts, join with a slash, normalize. -/
def pathJoin (parts : List String) : String :=
  let joined := String.intercalate "/" (parts.filter (fun p => p ≠ ""))
  if joined = "" then "." else pathNormalize joined

/-- Node `path.posix.relative` for already-absolute normalized inputs (the
only way `list_dusk_tests` uses it). -/
def dropCommonSegs : List String → List String → List String × List String
  | a :: as, b :: bs => if a = b then dropCommonSegs as bs else (a :: as, b :: bs)
  | as, bs => (as, bs)

/-- Relative path from one absolute path to another. -/
def pathRelative (fromPath toPath : String) : String :=
  let fs := ((splitOnChar '/' (pathNormalize fromPath).data).map String.mk).filter (fun p => p ≠ "")
  let ts := ((splitOnChar '/' (pathNormalize toPath).data).map String.mk).filter (fun p => p ≠ "")
  let (fr, tr) := dropCommonSegs fs ts
  String.intercalate "/" (fr.map (fun _ => "..") ++ tr)

/-! ### The environment: filesystem, process and JSON oracles

Every effect of the TypeScript code that reaches outside the process is a
read-only oracle here: `access` is a succeeding `fs.access`, `readFileText` /
`readFileBin` carry the file content or the thrown error message,
`parseJson` is `JSON.parse` (`none` when it throws), `readdir`/`isDir`
model directory listing and `fs.stat().isDirectory()`, `exec` is
`child_process.exec` returning stdout/stderr or a failure message, and
`unlink` deletes a file.  `resolve` is `path.resolve` (which depends on the
process working directory), `cwd` is `process.cwd()` and `home` the
`HOME || USERPROFILE || ''` value. -/

/-- Parsed JSON values as produced by `JSON.parse`. -/
inductive Json where
  | null
  | bool (b : Bool)
  | num (n : Int)
  | str (s : String)
  | arr (elems : List Json)
  | obj (fields : List (String × Json))

/-- Property access `j[k]` on a parsed JSON value: only objects have string
keys; `JSON.parse` never yields `undefined`, so a present key — whatever its
value — makes the access defined. -/
def Json.lookupKey : Json → String → Option Json
  | .obj fields, k => fields.lookup k
  | _, _ => none

/-- The dependency check of `isLaravelProject`:
`composer.require?.['laravel/framework'] !== undefined ||
 composer['require-dev']?.['laravel/framework'] !== undefined`. -/
def hasLaravelFramework (j : Json) : Bool :=
  ((j.lookupKey "require").bind (fun r => r.lookupKey "laravel/framework")).isSome ||
  ((j.lookupKey "require-dev").bind (fun r => r.lookupKey "laravel/framework")).isSome

/-- The external world as seen by the server. -/
structure Env where
  cwd : String
  home : String
  resolve : String → String
  access : String → Bool
  readFileText : String → Except String String
  readFileBin : String → Except String String
  parseJson : String → Option Json
  readdir : String → Except String (List String)
  isDir : String → Bool
  globSync : String → List String
  exec : String → String → Except String (String × String)
  unlink : String → Except String Unit

/-- The module-level mutable `config` object. -/
structure Config where
  laravelPath : String
  screenshotsPath : String
  logsPath : String
deriving DecidableEq, Repr

/-! ### Project validation and discovery -/

/-- Validator `isLaravelProject` (src/index.ts lines 25-46): both marker files must be
accessible, the manifest must read and parse, and the parsed manifest must
declare `laravel/framework` under `require` or `require-dev`; every failure
is caught and yields `false`. -/
def isLaravelProject (env : Env) (projectPath : String) : Bool :=
  let composerJsonPath := pathJoin [projectPath, "composer.json"]
  let artisanPath := pathJoin [projectPath, "artisan"]
  if env.access composerJsonPath && env.access artisanPath then
    match env.readFileText composerJsonPath with
    | .error _ => false
    | .ok content =>
      match env.parseJson content with
      | none => false
      | some composer => hasLaravelFramework composer
  else false

/-- The fixed ordered list of discovery roots. -/
def searchPaths (env : Env) : List String :=
  [env.cwd,
   pathJoin [env.home, "Sites"],
   pathJoin [env.home, "projects"],
   pathJoin [env.home, "workspace"],
   pathJoin [env.home, "dev"],
   pathJoin [env.home, "code"],
   "/var/www",
   "/var/www/html"]

/-- Order-preserving deduplication keeping the first occurrence, the effect
of `[...new Set(projects)]`. -/
def dedupFirstGo (seen : List String) : List String → List String
  | [] => []
  | x :: rest =>
    if x ∈ seen then dedupFirstGo seen rest else x :: dedupFirstGo (x :: seen) rest

/-- Deduplicate keeping first occurrences. -/
def dedupFirst (l : List String) : List String :=
  dedupFirstGo [] l

/-- Discovery `findLaravelProjects` (src/index.ts lines 49-81): for each root, list
subdirectories (an unreadable root contributes nothing), keep directories
that validate, and deduplicate. -/
def findLaravelProjects (env : Env) : List String :=
  dedupFirst ((searchPaths env).foldl (fun acc sp =>
    match env.readdir sp with
    | .error _ => acc
    | .ok dirs =>
      acc ++ dirs.filterMap (fun d =>
        let fullPath := pathJoin [sp, d]
        if env.isDir fullPath && isLaravelProject env fullPath then some fullPath
        else none)) [])

/-! ### `runCommand` -/

/-- The working directory chosen by `runCommand`:
`projectPath || config.laravelPath` (JS truthiness, so an empty string also
falls back to the active project). -/
def effectiveCwd (cfg : Config) (projectPath : Option String) : String :=
  match projectPath with
  | some p => if p = "" then cfg.laravelPath else p
  | none => cfg.laravelPath

/-- Runner `runCommand` (src/index.ts lines 98-112): validate the working
directory, then run the command; a spawn failure is rewrapped. -/
def runCommand (env : Env) (cfg : Config) (command : String)
    (projectPath : Option String) : Except String (String × String) :=
  let cwd := effectiveCwd cfg projectPath
  if isLaravelProject env cwd then
    match env.exec command cwd with
    | .ok r => .ok r
    | .error m => .error ("Command failed: " ++ m)
  else .error ("Not a valid Laravel project: " ++ cwd)

/-! ### Tool arguments and JS truthiness

The handlers read fields out of the untyped `arguments` bag with optional
chaining and truthiness tests; each field is modelled at the type its input
schema declares, and the truthiness tests (`''`, `false`, `0`, absent are
all falsy) are made explicit. -/

/-- The argument fields used by any of the eight tools. -/
structure ToolArgs where
  path : Option String := none
  test : Option String := none
  filter : Option String := none
  group : Option String := none
  headless : Option Bool := none
  version : Option String := none
  port : Option Nat := none
deriving DecidableEq, Repr

/-- Truthiness of an optional string: absent and empty are falsy. -/
def truthyStr : Option String → Option String
  | some s => if s = "" then none else some s
  | none => none

/-- Truthiness of an optional boolean: absent is falsy. -/
def truthyBool : Option Bool → Bool
  | some b => b
  | none => false

/-- Truthiness of an optional number: absent and `0` are falsy. -/
def truthyNat : Option Nat → Option Nat
  | some n => if n = 0 then none else some n
  | none => none

/-- The command string construction of the `run_dusk_test` case
(src/index.ts lines 434-451): base invocation, then positional `test`,
quoted `--filter`, `--group`, and `--headed` whenever `headless` is falsy
(note: also when it is absent). -/
def buildDuskCommand (args : Option ToolArgs) : String :=
  let command := "php artisan dusk"
  let command :=
    match truthyStr (args.bind ToolArgs.test) with
    | some t => command ++ " " ++ t
    | none => command
  let command :=
    match truthyStr (args.bind ToolArgs.filter) with
    | some f => command ++ " --filter=\"" ++ f ++ "\""
    | none => command
  let command :=
    match truthyStr (args.bind ToolArgs.group) with
    | some g => command ++ " --group=" ++ g
    | none => command
  if truthyBool (args.bind ToolArgs.headless) then command else command ++ " --headed"

/-! ### Tool responses and the dispatcher -/

/-- A content item of a tool response (every handler emits `type: 'text'`). -/
inductive ContentItem where
  | text (s : String)
deriving DecidableEq, Repr

/-- A tool response: a list of content items. -/
structure ToolResponse where
  content : List ContentItem
deriving DecidableEq, Repr

/-- The uniform single-text-item response shape used by every handler. -/
def textResponse (s : String) : ToolResponse :=
  { content := [.text s] }

/-- The response template of `run_dusk_test` on a successful run. -/
def formatDuskResults (results : TestResultSummary) (stderr : String) : String :=
  "Dusk Test Results:\n- Total Tests: " ++ toString results.total ++
  "\n- Passed: " ++ toString results.passed ++
  "\n- Failed: " ++ toString results.failed ++
  "\n- Duration: " ++ results.duration ++ "\n\n" ++
  (if results.failed > 0 then
    "\nFailures:\n" ++ String.intercalate "\n\n"
      (results.failures.map (fun f => "- " ++ f.test ++ "\n  " ++ f.message))
  else "All tests passed! ✅") ++ "\n\n" ++
  (if stderr ≠ "" then "\nWarnings/Errors:\n" ++ stderr else "")

/-- The unlink loop of `clear_dusk_screenshots`: delete each `.png` in
order, counting deletions; the first failure aborts the loop and is caught
by the surrounding handler. -/
def unlinkPngs (env : Env) (dir : String) : List String → Except String Nat
  | [] => .ok 0
  | f :: rest =>
    if strEndsWith f ".png" then
      match env.unlink (pathJoin [dir, f]) with
      | .ok _ => (unlinkPngs env dir rest).map (· + 1)
      | .error m => .error m
    else unlinkPngs env dir rest

/-- The static catalog of the eight tool names. -/
def toolNames : List String :=
  ["set_laravel_project", "list_laravel_projects", "run_dusk_test",
   "list_dusk_tests", "check_dusk_environment", "clear_dusk_screenshots",
   "install_chrome_driver", "start_dev_server"]

/-- The `CallToolRequestSchema` handler (src/index.ts lines 353-656): the
switch over the tool name.  The result pairs the protocol outcome (`.error`
is a thrown error propagating to the protocol layer, `.ok` a returned
response) with the possibly-updated module `config`. -/
def callTool (env : Env) (cfg : Config) (name : String) (args : Option ToolArgs) :
    Except String ToolResponse × Config :=
  if name = "set_laravel_project" then
    match truthyStr (args.bind ToolArgs.path) with
    | none => (.error "Project path is required", cfg)
    | some projectPath =>
      let absolutePath := env.resolve projectPath
      if !isLaravelProject env absolutePath then
        (.ok (textResponse ("Error: " ++ absolutePath ++
          " is not a valid Laravel project. Please ensure the path contains a Laravel installation with composer.json and artisan files.")), cfg)
      else
        let duskInstalled := env.access (pathJoin [absolutePath, "vendor/laravel/dusk"])
        (.ok (textResponse ("Laravel project set to: " ++ absolutePath ++ "\n" ++
          (if duskInstalled then "✅ Laravel Dusk is installed"
           else "⚠️  Laravel Dusk is not installed. Run: composer require laravel/dusk --dev"))),
         { cfg with laravelPath := absolutePath })
  else if name = "list_laravel_projects" then
    let projects := findLaravelProjects env
    if projects = [] then
      (.ok (textResponse "No Laravel projects found in common locations. Use set_laravel_project to specify a custom path."), cfg)
    else
      let projectInfo := projects.map (fun project =>
        let duskInstalled := env.access (pathJoin [project, "vendor/laravel/dusk"])
        project ++ " " ++ (if duskInstalled then "(Dusk ✅)" else "(Dusk ❌)"))
      (.ok (textResponse ("Found Laravel projects:\n" ++
        String.intercalate "\n" (projectInfo.map (fun p => "- " ++ p)) ++
        "\n\nCurrent project: " ++ cfg.laravelPath)), cfg)
  else if name = "run_dusk_test" then
    let command := buildDuskCommand args
    match runCommand env cfg command none with
    | .ok (stdout, stderr) =>
      let results := parseTestResults stdout
      (.ok (textResponse (formatDuskResults results stderr)), cfg)
    | .error m => (.ok (textResponse ("Error running Dusk tests: " ++ m)), cfg)
  else if name = "list_dusk_tests" then
    let testsDir := pathJoin [cfg.laravelPath, "tests/Browser"]
    let pattern := pathJoin [testsDir, "**/*.php"]
    let files := env.globSync pattern
    let tests := files.map (fun file => pathRelative testsDir file)
    (.ok (textResponse ("Available Dusk Tests:\n" ++
      String.intercalate "\n" (tests.map (fun t => "- " ++ t)))), cfg)
  else if name = "check_dusk_environment" then
    let c1 := if env.access (pathJoin [cfg.laravelPath, "vendor/laravel/dusk"]) then
        "✅ Laravel Dusk is installed"
      else "❌ Laravel Dusk is not installed (run: composer require laravel/dusk --dev)"
    let c2 := if env.access (pathJoin [cfg.laravelPath, ".env.dusk.local"]) then
        "✅ .env.dusk.local file exists"
      else "⚠️  .env.dusk.local file not found (optional but recommended)"
    let c3 := match runCommand env cfg "php artisan dusk:chrome-driver --detect" none with
      | .ok _ => "✅ ChromeDriver is properly configured"
      | .error _ => "❌ ChromeDriver not found or outdated (run: php artisan dusk:install)"
    let c4 := if env.access (pathJoin [cfg.laravelPath, "tests/Browser"]) then
        "✅ Browser tests directory exists"
      else "❌ Browser tests directory not found"
    (.ok (textResponse ("Dusk Environment Check:\n" ++
      String.intercalate "\n" [c1, c2, c3, c4])), cfg)
  else if name = "clear_dusk_screenshots" then
    let screenshotsDir := pathJoin [cfg.laravelPath, cfg.screenshotsPath]
    match env.readdir screenshotsDir with
    | .error m => (.ok (textResponse ("Error clearing screenshots: " ++ m)), cfg)
    | .ok files =>
      match unlinkPngs env screenshotsDir files with
      | .error m => (.ok (textResponse ("Error clearing screenshots: " ++ m)), cfg)
      | .ok deleted =>
        (.ok (textResponse ("Cleared " ++ toString deleted ++
          " screenshot(s) from the Dusk screenshots directory.")), cfg)
  else if name = "install_chrome_driver" then
    let command :=
      match truthyStr (args.bind ToolArgs.version) with
      | some v => "php artisan dusk:chrome-driver " ++ v
      | none => "php artisan dusk:chrome-driver --detect"
    match runCommand env cfg command none with
    | .ok (stdout, stderr) =>
      (.ok (textResponse ("ChromeDriver Installation:\n" ++ stdout ++ "\n" ++
        (if stderr ≠ "" then "\nWarnings: " ++ stderr else ""))), cfg)
    | .error m => (.ok (textResponse ("Error installing ChromeDriver: " ++ m)), cfg)
  else if name = "start_dev_server" then
    let port :=
      match truthyNat (args.bind ToolArgs.port) with
      | some p => p
      | none => 8000
    -- The `exec` call here is fire-and-forget: the spawned process is not
    -- awaited and no handle is retained, so it has no observable effect on
    -- the response.
    (.ok (textResponse ("Laravel development server starting on port " ++ toString port ++
      "...\nNote: The server is running in the background. Make sure to stop it when done.")), cfg)
  else (.error ("Unknown tool: " ++ name), cfg)

/-! ### The resource read handler -/

/-- The content of a read resource: screenshots are returned as a base64
blob (the bytes are carried abstractly; the base64 transcoding of opaque
oracle-supplied bytes is not modelled), logs as text. -/
inductive ResourceContent where
  | blobContent (uri : String) (mimeType : String) (blob : String)
  | textContent (uri : String) (mimeType : String) (text : String)
deriving DecidableEq, Repr

/-- The file path computed for a resource URI:
`path.join(config.laravelPath, subdir, filename)` with the filename taken
verbatim from the URI. -/
def resourceFilePath (cfg : Config) (subdir filename : String) : String :=
  pathJoin [cfg.laravelPath, subdir, filename]

/-- The `ReadResourceRequestSchema` handler (src/index.ts lines 316-350).
`uri.replace('scheme://', '')` removes the first occurrence, which under the
`startsWith` guard is exactly the leading scheme.  Read failures and unknown
schemes propagate as protocol errors. -/
def readResource (env : Env) (cfg : Config) (uri : String) :
    Except String ResourceContent :=
  if strStartsWith uri "screenshot://" then
    let filename := String.mk (uri.data.drop "screenshot://".data.length)
    let filepath := resourceFilePath cfg cfg.screenshotsPath filename
    match env.readFileBin filepath with
    | .ok content => .ok (.blobContent uri "image/png" content)
    | .error m => .error m
  else if strStartsWith uri "log://" then
    let filename := String.mk (uri.data.drop "log://".data.length)
    let filepath := resourceFilePath cfg cfg.logsPath filename
    match env.readFileText filepath with
    | .ok content => .ok (.textContent uri "text/plain" content)
    | .error m => .error m
  else .error "Unknown resource type"

/-! ### Concrete test fixtures and the specification's input family -/

/-- Character of one decimal digit. -/
def digitChar (d : Nat) : Char :=
  Char.ofNat (48 + d)

/-- Decimal rendering of a natural number (most significant digit first). -/
def natDigits (n : Nat) : List Char :=
  if n = 0 then ['0'] else ((Nat.digits 10 n).reverse.map digitChar)

/-- Head-not-a-digit test, the stopping condition of a greedy digit run. -/
def noDigitHead : List Char → Bool
  | [] => true
  | c :: _ => !isDigitChar c

/-- The specification's parameterized input
`"Tests: {total}, Assertions: 5, Failures: {failed}"`, laid out as the
summary matcher consumes it. -/
def summaryChars (t f : Nat) : List Char :=
  "Tests:".data ++ (' ' :: (natDigits t ++ (',' :: (' ' :: ("Assertions:".data ++
    (' ' :: ('5' :: (',' :: (' ' :: ("Failures:".data ++ (' ' :: natDigits f)))))))))))

/-- The same family as a string. -/
def summaryLine (t f : Nat) : String :=
  String.mk (summaryChars t f)

/-- An environment in which every filesystem and process operation fails:
no file is accessible, nothing parses, every spawn errors. -/
def envNone : Env where
  cwd := "/cwd"
  home := "/home/u"
  resolve := fun p => p
  access := fun _ => false
  readFileText := fun _ => .error "ENOENT"
  readFileBin := fun _ => .error "ENOENT"
  parseJson := fun _ => none
  readdir := fun _ => .error "ENOENT"
  isDir := fun _ => false
  globSync := fun _ => []
  exec := fun _ _ => .error "spawn failed"
  unlink := fun _ => .error "EPERM"

/-- The module configuration with the active project at `/app` and the two
fixed artifact subdirectories from src/index.ts lines 18-22. -/
def cfg0 : Config where
  laravelPath := "/app"
  screenshotsPath := "tests/Browser/screenshots"
  logsPath := "storage/logs/dusk"

/-- An environment holding exactly one readable binary file, at the path
`/app/tests/x` that lies OUTSIDE the screenshots directory of `cfg0`. -/
def envReadX : Env :=
  { envNone with
    readFileBin := fun p => if p = "/app/tests/x" then .ok "OUTSIDE-DATA" else .error "ENOENT" }

/-! ## Supporting lemmas -/

/-- A literal prefix always strips off itself. -/
theorem matchLit_append (l r : List Char) : matchLit l (l ++ r) = some r := by
  induction l with
  | nil => rfl
  | cons c cs ih => simp [matchLit, ih]

/-- A digit character is not JS whitespace. -/
theorem isDigitChar_not_ws (c : Char) (h : isDigitChar c = true) : jsWs c = false := by
  simp only [isDigitChar, decide_eq_true_eq] at h
  simp only [jsWs, decide_eq_false_iff_not]
  omega

/-- The rendered digit of `d < 10` is a digit character with value `d`. -/
theorem digitChar_spec (d : Nat) (hd : d < 10) :
    isDigitChar (digitChar d) = true ∧ (digitChar d).toNat - 48 = d := by
  interval_cases d <;> exact ⟨by decide, by decide⟩

/-- Every character of a decimal rendering is a digit character. -/
theorem natDigits_all_digits (n : Nat) : ∀ c ∈ natDigits n, isDigitChar c = true := by
  intro c hc
  unfold natDigits at hc
  split at hc
  · simp only [List.mem_singleton] at hc
    subst hc; decide
  · simp only [List.mem_map, List.mem_reverse] at hc
    obtain ⟨d, hd, rfl⟩ := hc
    exact (digitChar_spec d (Nat.digits_lt_base (by norm_num) hd)).1

/-- A decimal rendering is never empty. -/
theorem natDigits_ne_nil (n : Nat) : natDigits n ≠ [] := by
  unfold natDigits
  split
  · simp
  · simp only [ne_eq, List.map_eq_nil_iff, List.reverse_eq_nil_iff]
    exact Nat.digits_ne_nil_iff_ne_zero.mpr (by assumption)

/-- A decimal rendering starts with a digit character. -/
theorem natDigits_head (n : Nat) :
    ∃ c rest, natDigits n = c :: rest ∧ isDigitChar c = true ∧ jsWs c = false := by
  cases h : natDigits n with
  | nil => exact absurd h (natDigits_ne_nil n)
  | cons c rest =>
    have hc : isDigitChar c = true := natDigits_all_digits n c (h ▸ List.mem_cons_self c rest)
    exact ⟨c, rest, rfl, hc, isDigitChar_not_ws c hc⟩

/-- Whitespace stripping stops immediately in front of a decimal rendering. -/
theorem dropWhile_jsWs_natDigits (n : Nat) (r : List Char) :
    List.dropWhile jsWs (natDigits n ++ r) = natDigits n ++ r := by
  obtain ⟨c, rest, hEq, _, hws⟩ := natDigits_head n
  rw [hEq]
  simp [List.dropWhile_cons, hws]

/-- Whitespace stripping leaves a bare decimal rendering untouched. -/
theorem dropWhile_jsWs_natDigits_nil (n : Nat) :
    List.dropWhile jsWs (natDigits n) = natDigits n := by
  have h := dropWhile_jsWs_natDigits n []
  simpa using h

/-- A greedy digit run over digits followed by a non-digit boundary folds up
the decimal value and stops at the boundary. -/
theorem digitsVal_append (ds : List Char) (rest : List Char) (acc : Nat)
    (hds : ∀ c ∈ ds, isDigitChar c = true) (hrest : noDigitHead rest = true) :
    digitsVal acc (ds ++ rest) =
      (List.foldl (fun a c => a * 10 + (c.toNat - 48)) acc ds, rest) := by
  induction ds generalizing acc with
  | nil =>
    cases rest with
    | nil => rfl
    | cons c cs =>
      simp only [noDigitHead, Bool.not_eq_true'] at hrest
      simp [digitsVal, hrest]
  | cons c cs ih =>
    have hc : isDigitChar c = true := hds c (List.mem_cons_self c cs)
    simp only [List.cons_append, digitsVal, hc, if_true, List.foldl_cons]
    exact ih _ (fun x hx => hds x (List.mem_cons_of_mem c hx))

/-- Folding the rendered digits of a digit list recovers its value. -/
theorem foldl_digitChar (l : List Nat) (hl : ∀ d ∈ l, d < 10) (a : Nat) :
    List.foldl (fun x c => x * 10 + (c.toNat - 48)) a (l.map digitChar) =
      a * 10 ^ l.length + Nat.ofDigits 10 l.reverse := by
  induction l generalizing a with
  | nil => simp
  | cons d L ih =>
    simp only [List.map_cons, List.foldl_cons, List.reverse_cons, List.length_cons]
    rw [ih (fun x hx => hl x (List.mem_cons_of_mem d hx))]
    rw [Nat.ofDigits_append]
    have hd : (digitChar d).toNat - 48 = d :=
      (digitChar_spec d (hl d (List.mem_cons_self d L))).2
    rw [hd]
    simp only [Nat.ofDigits_cons, Nat.ofDigits_nil, List.length_reverse, Nat.cast_id,
      mul_zero, add_zero, pow_succ]
    ring

/-- The greedy digit run over a decimal rendering recovers the number. -/
theorem foldl_natDigits (n : Nat) :
    List.foldl (fun x c => x * 10 + (c.toNat - 48)) 0 (natDigits n) = n := by
  unfold natDigits
  split
  · rename_i h; subst h; decide
  · have hl : ∀ d ∈ (Nat.digits 10 n).reverse, d < 10 := by
      intro d hd
      exact Nat.digits_lt_base (by norm_num) (List.mem_reverse.mp hd)
    rw [foldl_digitChar _ hl 0]
    simp [Nat.ofDigits_digits]

/-- The capture `(\d+)` over a decimal rendering at a non-digit boundary yields the
number and stops at the boundary. -/
theorem takeDigits1_natDigits (n : Nat) (r : List Char) (hr : noDigitHead r = true) :
    takeDigits1 (natDigits n ++ r) = some (n, r) := by
  obtain ⟨c, rest, hEq, hdig, _⟩ := natDigits_head n
  rw [hEq]
  simp only [List.cons_append, takeDigits1, hdig, if_true]
  have h := digitsVal_append (c :: rest) r 0 (fun x hx => natDigits_all_digits n x (hEq ▸ hx)) hr
  simp only [List.cons_append] at h
  rw [h]
  have hv := foldl_natDigits n
  rw [hEq] at hv
  rw [hv]

/-- The capture `(\d+)` over a bare decimal rendering. -/
theorem takeDigits1_natDigits_nil (n : Nat) :
    takeDigits1 (natDigits n) = some (n, []) := by
  have h := takeDigits1_natDigits n [] rfl
  simpa using h

/-- The class `\s+` over exactly one space strips just that space. -/
theorem takeWs1_space (r : List Char) :
    takeWs1 (' ' :: r) = some (List.dropWhile jsWs r) := rfl

/-- A comma is not a digit, so a digit run stops in front of it. -/
theorem noDigitHead_comma (r : List Char) : noDigitHead (',' :: r) = true := rfl

/-- An empty literal matches, leaving the input untouched. -/
theorem matchLit_nil (cs : List Char) : matchLit [] cs = some cs := rfl

/-- A literal consumes one equal character at a time. -/
theorem matchLit_cons_same (c : Char) (ls cs : List Char) :
    matchLit (c :: ls) (c :: cs) = matchLit ls cs := by
  simp [matchLit]

/-- Whitespace stripping stops at a capital A. -/
theorem dropWhile_jsWs_A (r : List Char) :
    List.dropWhile jsWs ('A' :: r) = 'A' :: r := rfl

/-- Whitespace stripping stops at a capital F. -/
theorem dropWhile_jsWs_F (r : List Char) :
    List.dropWhile jsWs ('F' :: r) = 'F' :: r := rfl

/-- The assertions capture of the family input: the single digit 5. -/
theorem takeDigits1_five (r : List Char) :
    takeDigits1 ('5' :: (',' :: r)) = some (5, ',' :: r) := rfl

/-- Whitespace stripping stops at the digit five. -/
theorem dropWhile_jsWs_five (r : List Char) :
    List.dropWhile jsWs ('5' :: r) = '5' :: r := rfl

/-- The optional failures clause matches on the family input. -/
theorem trySummaryTail_family (f : Nat) :
    trySummaryTail (',' :: ' ' :: 'F' :: 'a' :: 'i' :: 'l' :: 'u' :: 'r' :: 'e' :: 's' ::
      ':' :: ' ' :: natDigits f) = some f := by
  simp only [trySummaryTail, matchLit_nil, matchLit_cons_same, List.cons_append,
    List.nil_append, Option.some_bind, takeWs1_space, dropWhile_jsWs_F,
    dropWhile_jsWs_natDigits_nil, takeDigits1_natDigits_nil, Option.map_some']

/-- The summary regex matches at the start of the family input with the
intended captures. -/
theorem trySummaryAt_summary (t f : Nat) :
    trySummaryAt (summaryChars t f) = some (t, f) := by
  simp only [summaryChars, trySummaryAt, matchLit_nil, matchLit_cons_same,
    List.cons_append, List.nil_append, List.append_assoc, Option.some_bind,
    takeWs1_space, dropWhile_jsWs_natDigits, takeDigits1_natDigits, noDigitHead_comma,
    dropWhile_jsWs_A, dropWhile_jsWs_five, takeDigits1_five, trySummaryTail_family,
    Option.map_some', Option.getD_some]

/-- A leftmost scan returns the position-zero match when there is one. -/
theorem findSummary_of_tryAt {cs : List Char} {r : Nat × Nat}
    (h : trySummaryAt cs = some r) : findSummary cs = some r := by
  cases cs with
  | nil => simp [trySummaryAt, matchLit] at h
  | cons c cst =>
    unfold findSummary
    rw [h]

/-- The summary matcher extracts the parameters of the family input. -/
theorem findSummary_summaryLine (t f : Nat) :
    findSummary (summaryLine t f).data = some (t, f) :=
  findSummary_of_tryAt (trySummaryAt_summary t f)

/-! ## Claim theorems -/

/-- Claim C4: for every input string the summary of `parseTestResults`
satisfies `passed = total - failed` and `skipped = 0`; and for all
`failed <= total`, parsing `"Tests: {total}, Assertions: 5,
Failures: {failed}"` yields `passed = total - failed` (with the captured
`total` and `failed` as stated). -/
theorem parse_passed_invariant :
    (∀ s : String,
      (parseTestResults s).passed =
        ((parseTestResults s).total : Int) - ((parseTestResults s).failed : Int) ∧
      (parseTestResults s).skipped = 0) ∧
    (∀ t f : Nat, f ≤ t →
      (parseTestResults (summaryLine t f)).passed = (t : Int) - (f : Int) ∧
      (parseTestResults (summaryLine t f)).total = t ∧
      (parseTestResults (summaryLine t f)).failed = f) := by
  constructor
  · intro s
    simp only [parseTestResults]
    cases h1 : findSummary s.data with
    | none => cases h2 : findTime s.data <;> cases h3 : findFailures s.data <;> simp
    | some p =>
      cases h2 : findTime s.data <;> cases h3 : findFailures s.data <;> simp
  · intro t f _
    have hs : findSummary (summaryLine t f).data = some (t, f) := findSummary_summaryLine t f
    simp only [parseTestResults, hs]
    cases h2 : findTime (summaryLine t f).data <;>
      cases h3 : findFailures (summaryLine t f).data <;> simp

/-- Claim C4 witness: the parameterized part of the invariant at
`total = 3`, `failed = 1`. -/
theorem parse_passed_invariant_witness :
    1 ≤ 3 ∧ (parseTestResults (summaryLine 3 1)).passed = (3 : Int) - (1 : Int) :=
  ⟨by decide, (parse_passed_invariant.2 3 1 (by decide)).1⟩

/-- Claim C1 counterexample: an output string with no `Tests:` summary line
but a `FAILURES!` block makes `parseTestResults` return zero counters yet a
NON-empty failures list, refuting the claim that the failures list is empty
for every such string. -/
theorem parse_noSummary_counterexample :
    findSummary "FAILURES!\n1) ExampleTest\n\n".data = none ∧
    (parseTestResults "FAILURES!\n1) ExampleTest\n\n").total = 0 ∧
    (parseTestResults "FAILURES!\n1) ExampleTest\n\n").failures =
      [{ test := "ExampleTest", message := "" }] := by
  refine ⟨by decide, by decide, by decide⟩

/-- Claim C1 (amended): for every output string with no line matching the
summary pattern, `parseTestResults` returns `total = 0`, `failed = 0` and
`passed = 0`; its failures list is additionally empty whenever the string
also has no `FAILURES!` block match (the failure extraction runs
independently of the summary line). -/
theorem parse_noSummary_zero (s : String) (h : findSummary s.data = none) :
    (parseTestResults s).total = 0 ∧ (parseTestResults s).failed = 0 ∧
    (parseTestResults s).passed = 0 ∧
    (findFailures s.data = none → (parseTestResults s).failures = []) := by
  simp only [parseTestResults, h]
  cases h2 : findTime s.data <;> cases h3 : findFailures s.data <;> simp [h3]

/-- Claim C1 witness: the amended statement at the input `"hello"`. -/
theorem parse_noSummary_zero_witness :
    findSummary "hello".data = none ∧
    ((parseTestResults "hello").total = 0 ∧ (parseTestResults "hello").failed = 0 ∧
     (parseTestResults "hello").passed = 0 ∧
     (findFailures "hello".data = none → (parseTestResults "hello").failures = [])) :=
  ⟨by decide, parse_noSummary_zero "hello" (by decide)⟩

/-- Claim C5: `parseTestResults` is a total function of its input (it is a
Lean function into `TestResultSummary`, so it returns a summary on every
string without failing), and the absence of each expected pattern — summary
line, `Time:` line, `FAILURES!` block — yields the zero or empty default
for the corresponding fields. -/
theorem parse_is_total_with_defaults (s : String) :
    (findSummary s.data = none →
      (parseTestResults s).total = 0 ∧ (parseTestResults s).failed = 0 ∧
      (parseTestResults s).passed = 0) ∧
    (findTime s.data = none → (parseTestResults s).duration = "") ∧
    (findFailures s.data = none → (parseTestResults s).failures = []) := by
  refine ⟨fun h1 => ?_, fun h2 => ?_, fun h3 => ?_⟩
  · simp only [parseTestResults, h1]
    cases h2 : findTime s.data <;> cases h3 : findFailures s.data <;> simp
  · simp only [parseTestResults, h2]
    cases h1 : findSummary s.data <;> cases h3 : findFailures s.data <;> simp
  · simp only [parseTestResults, h3]
    cases h1 : findSummary s.data <;> cases h2 : findTime s.data <;> simp

/-- Claim C5 witness: the defaults at the empty input. -/
theorem parse_is_total_with_defaults_witness :
    (parseTestResults "").total = 0 ∧ (parseTestResults "").duration = "" ∧
    (parseTestResults "").failures = [] :=
  ⟨((parse_is_total_with_defaults "").1 (by decide)).1,
   (parse_is_total_with_defaults "").2.1 (by decide),
   (parse_is_total_with_defaults "").2.2 (by decide)⟩

/-- Claim C2 (code bug): the `run_dusk_test` command builder appends the
`--headed` (visible browser) flag whenever `headless` is falsy — in
particular when it is UNSPECIFIED — although the tool's own input schema
declares `headless` to default to `true`; the positional/flag ordering and
filter quoting of the claim are otherwise as built. -/
theorem buildDuskCommand_headed_by_default :
    buildDuskCommand (some {}) = "php artisan dusk --headed" ∧
    buildDuskCommand none = "php artisan dusk --headed" ∧
    buildDuskCommand (some { filter := some "Login", headless := some false }) =
      "php artisan dusk --filter=\"Login\" --headed" ∧
    buildDuskCommand (some { headless := some true }) = "php artisan dusk" := by
  refine ⟨by decide, by decide, by decide, by decide⟩

/-- Claim C3 counterexample: invoking `set_laravel_project` with no `path`
argument (absent bag, or empty-string path) makes the dispatcher THROW
`Project path is required` — an error result propagating to the protocol
layer — rather than return a textual error content item. -/
theorem callTool_missing_path_counterexample :
    callTool envNone cfg0 "set_laravel_project" none =
      (.error "Project path is required", cfg0) ∧
    callTool envNone cfg0 "set_laravel_project" (some { path := some "" }) =
      (.error "Project path is required", cfg0) := by
  exact ⟨rfl, rfl⟩

/-- Claim C3 (amended): whenever `set_laravel_project` is invoked with a
missing (or empty, hence falsy) `path` argument, the handler throws an
error carrying `Project path is required` which propagates to the protocol
layer, leaving the configuration unchanged; the failure is NOT rendered as
a textual response. -/
theorem callTool_missing_path_throws (env : Env) (cfg : Config) (args : Option ToolArgs)
    (h : truthyStr (args.bind ToolArgs.path) = none) :
    callTool env cfg "set_laravel_project" args = (.error "Project path is required", cfg) := by
  simp only [callTool, h]
  rw [if_pos trivial]

/-- Claim C3 witness: the amended statement with no argument bag at all. -/
theorem callTool_missing_path_throws_witness :
    truthyStr ((none : Option ToolArgs).bind ToolArgs.path) = none ∧
    callTool envNone cfg0 "set_laravel_project" none =
      (.error "Project path is required", cfg0) :=
  ⟨by decide, callTool_missing_path_throws envNone cfg0 none (by decide)⟩

/-- Claim C6: `runCommand` validates the effective working directory (the
explicit project argument if truthy, else the active project path) before
anything else; when validation fails it throws an error carrying the
rejected path, and the result is independent of the `exec` oracle — the
external command is never spawned. -/
theorem runCommand_validates_first (env : Env) (cfg : Config) (command : String)
    (projectPath : Option String)
    (h : isLaravelProject env (effectiveCwd cfg projectPath) = false) :
    ∀ ex, runCommand { env with exec := ex } cfg command projectPath =
      .error ("Not a valid Laravel project: " ++ effectiveCwd cfg projectPath) := by
  intro ex
  have heq : isLaravelProject { env with exec := ex } (effectiveCwd cfg projectPath) =
      isLaravelProject env (effectiveCwd cfg projectPath) := rfl
  simp only [runCommand, heq, h, Bool.false_eq_true, if_false]

/-- Claim C6 witness: a failing validation with an `exec` oracle that would
succeed, showing the spawn result never surfaces. -/
theorem runCommand_validates_first_witness :
    isLaravelProject envNone (effectiveCwd cfg0 none) = false ∧
    runCommand { envNone with exec := fun _ _ => .ok ("out", "") } cfg0 "php artisan dusk" none =
      .error ("Not a valid Laravel project: " ++ effectiveCwd cfg0 none) :=
  ⟨by decide,
   runCommand_validates_first envNone cfg0 "php artisan dusk" none (by decide) _⟩

/-- Claim C7: `isLaravelProject` returns `true` exactly when both marker
files are accessible and the manifest reads, parses, and declares
`laravel/framework` under `require` or `require-dev`; in every other case
(missing file, unreadable or unparsable manifest, absent key) it returns
`false` — and being a Lean function into `Bool` it never throws. -/
theorem isLaravelProject_spec (env : Env) (p : String) :
    isLaravelProject env p = true ↔
      (env.access (pathJoin [p, "composer.json"]) = true ∧
       env.access (pathJoin [p, "artisan"]) = true ∧
       ∃ content composer,
         env.readFileText (pathJoin [p, "composer.json"]) = .ok content ∧
         env.parseJson content = some composer ∧
         hasLaravelFramework composer = true) := by
  simp only [isLaravelProject]
  cases hA : env.access (pathJoin [p, "composer.json"]) with
  | false => simp [hA]
  | true =>
    cases hB : env.access (pathJoin [p, "artisan"]) with
    | false => simp [hB]
    | true =>
      simp only [Bool.and_self, if_true]
      cases hR : env.readFileText (pathJoin [p, "composer.json"]) with
      | error m => simp [hR]
      | ok content =>
        cases hJ : env.parseJson content with
        | none => simp [hJ]
        | some j => simp [hJ]

/-- Claim C8: every tool name outside the static catalog of eight makes the
dispatcher throw `Unknown tool: <name>`, an error result that propagates to
the protocol layer instead of being rendered as a textual content item,
and leaves the configuration unchanged. -/
theorem callTool_unknown_throws (env : Env) (cfg : Config) (name : String)
    (args : Option ToolArgs) (h : name ∉ toolNames) :
    callTool env cfg name args = (.error ("Unknown tool: " ++ name), cfg) := by
  simp only [toolNames, List.mem_cons, List.not_mem_nil, or_false, not_or] at h
  obtain ⟨h1, h2, h3, h4, h5, h6, h7, h8⟩ := h
  simp only [callTool, if_neg h1, if_neg h2, if_neg h3, if_neg h4, if_neg h5, if_neg h6,
    if_neg h7, if_neg h8]

/-- Claim C8 witness: the unknown-tool behaviour at `bogus_tool`. -/
theorem callTool_unknown_throws_witness :
    "bogus_tool" ∉ toolNames ∧
    callTool envNone cfg0 "bogus_tool" none = (.error "Unknown tool: bogus_tool", cfg0) :=
  ⟨by decide, callTool_unknown_throws envNone cfg0 "bogus_tool" none (by decide)⟩

/-- Claim C9: when `set_laravel_project` is called with a (truthy) path
whose resolution fails project validation, the handler returns the textual
validation-error response and the configuration — in particular the active
project path — is left unchanged; the path is therefore mutated only after
validation succeeds. -/
theorem setProject_invalid_keeps_config (env : Env) (cfg : Config) (p : String)
    (hp : p ≠ "") (h : isLaravelProject env (env.resolve p) = false) :
    callTool env cfg "set_laravel_project" (some { path := some p }) =
      (.ok (textResponse ("Error: " ++ env.resolve p ++
        " is not a valid Laravel project. Please ensure the path contains a Laravel installation with composer.json and artisan files.")), cfg) := by
  have ht : truthyStr ((some ({ path := some p } : ToolArgs)).bind ToolArgs.path) = some p := by
    simp [truthyStr, Option.bind, hp]
  simp only [callTool, ht, h]
  simp

/-- Claim C9 witness: an invalid path `/x` leaves `cfg0` untouched. -/
theorem setProject_invalid_keeps_config_witness :
    ("/x" : String) ≠ "" ∧ isLaravelProject envNone (envNone.resolve "/x") = false ∧
    callTool envNone cfg0 "set_laravel_project" (some { path := some "/x" }) =
      (.ok (textResponse ("Error: " ++ envNone.resolve "/x" ++
        " is not a valid Laravel project. Please ensure the path contains a Laravel installation with composer.json and artisan files.")), cfg0) :=
  ⟨by decide, by decide,
   setProject_invalid_keeps_config envNone cfg0 "/x" (by decide) (by decide)⟩

/-- Claim C10: the resource read handler resolves `screenshot://` URIs by
joining the active project path, the fixed screenshots subdirectory and the
verbatim filename with no containment check, so the URI
`screenshot://../../x` reads `/app/tests/x`, a file OUTSIDE the screenshots
directory — witnessed by an environment whose only readable file is that
outside path. -/
theorem readResource_escapes_artifact_dir :
    resourceFilePath cfg0 cfg0.screenshotsPath "../../x" = "/app/tests/x" ∧
    strStartsWith "/app/tests/x" "/app/tests/Browser/screenshots/" = false ∧
    readResource envReadX cfg0 "screenshot://../../x" =
      .ok (.blobContent "screenshot://../../x" "image/png" "OUTSIDE-DATA") := by
  exact ⟨by decide, by decide, rfl⟩

end LaravelDusk
